import Mathlib

/-!
Shallow embedding of `magnesis` (src/main.rs): a tool that pulls GitHub
Actions artifacts for one revision.  External effects (git subprocess
invocations, HTTP responses, filesystem operations, the zip extractor) are
modelled as explicit oracle inputs; `error_stack` reports are modelled as a
context chain plus a list of attached printables.
-/

namespace Magnesis

/-- The error kinds of `enum Error` in src/main.rs. -/
inductive Error
  | CreateOutput
  | Repo
  | Rev
  | NoToken
  | InvalidToken
  | GetArtifacts
  | DownloadArtifact
  | Parse
  | Command
  | RequestClient
  | Request
  | Expired
  | Extract
  deriving DecidableEq, Repr, BEq

/-- An `error_stack::Report`: the chain of contexts added by `change_context`
(outermost first) and the attached printables (most recently attached first).
A report created from an external error (io error, utf8 error, reqwest error,
zip error, ...) by `change_context` is modelled as a chain holding only the
new context. -/
structure Report where
  contexts : List Error
  attachments : List String
  deriving DecidableEq, Repr, BEq

/-- `report!(e)` in src/main.rs. -/
def report (e : Error) : Report :=
  { contexts := [e], attachments := [] }

/-- `Report::change_context` / `ResultExt::change_context`. -/
def Report.change_context (r : Report) (e : Error) : Report :=
  { contexts := e :: r.contexts, attachments := r.attachments }

/-- `Report::attach_printable` / `ResultExt::attach_printable`. -/
def Report.attach_printable (r : Report) (s : String) : Report :=
  { contexts := r.contexts, attachments := s :: r.attachments }

/-- The observable outcome of one external `tokio::process::Command` run
(`git rev-parse <rev>` or `git remote get-url origin`): whether the exit
status was success, the `Display` rendering of the exit status, and the
stdout bytes decoded as UTF-8 (`none` models invalid UTF-8). -/
structure CmdOutput where
  success : Bool
  statusDisplay : String
  stdout : Option String
  deriving DecidableEq, Repr

/-- Rust `char::is_ascii_hexdigit`: `0-9`, `a-f` or `A-F`. -/
def is_ascii_hexdigit (c : Char) : Bool :=
  c.isDigit || (('a' ≤ c) && (c ≤ 'f')) || (('A' ≤ c) && (c ≤ 'F'))

/-- Rust `str::trim`: drop leading and trailing whitespace characters. -/
def rust_trim (s : String) : String :=
  String.mk
    (((s.data.dropWhile Char.isWhitespace).reverse.dropWhile
      Char.isWhitespace).reverse)

/-- The fast-path test of `get_rev` (src/main.rs:133):
`rev.len() == 40 && rev.chars().all(|c| c.is_ascii_hexdigit())`.
Rust's `len` is the UTF-8 byte length. -/
def isHex40 (rev : String) : Bool :=
  rev.utf8ByteSize == 40 && rev.data.all is_ascii_hexdigit

/-- `get_rev` (src/main.rs:132-150).  `git_rev_parse` is the oracle for the
external `git rev-parse <rev>` call (`none` models a spawn failure).  The
second component records whether that external command was invoked.
Rust's `str::trim` is modelled by `rust_trim`. -/
def get_rev (git_rev_parse : Option CmdOutput) (rev : String) :
    Except Report String × Bool :=
  if isHex40 rev then
    (Except.ok rev, false)
  else
    match git_rev_parse with
    | none => (Except.error (report Error.Command), true)
    | some out =>
      if !out.success then
        (Except.error ((report Error.Command).attach_printable
          ("status: " ++ out.statusDisplay)), true)
      else
        match out.stdout with
        | none => (Except.error (report Error.Command), true)
        | some s => (Except.ok (rust_trim s), true)

/-- Rust `str::strip_prefix` on strings.  Rust strips on bytes; for valid
UTF-8 a whole-string byte prefix coincides with a character-list prefix. -/
def strip_pre (s p : String) : Option String :=
  if p.data.isPrefixOf s.data then
    some (String.mk (s.data.drop p.data.length))
  else none

/-- Rust `str::strip_suffix` on strings. -/
def strip_suf (s p : String) : Option String :=
  if p.data.isSuffixOf s.data then
    some (String.mk (s.data.take (s.data.length - p.data.length)))
  else none

/-- The URL-parsing tail of `get_repo` (src/main.rs:165-176), applied to the
trimmed stdout of `git remote get-url origin`. -/
def parse_repo (decoded : String) : Except Report String :=
  let repoOpt :=
    match strip_pre decoded "http://github.com/" with
    | some repo => some repo
    | none =>
      match strip_pre decoded "https://github.com/" with
      | some repo => some repo
      | none => strip_pre decoded "git@github.com:"
  match repoOpt with
  | none =>
    Except.error ((report Error.Repo).attach_printable
      ("failed to get repo from: " ++ decoded))
  | some repo => Except.ok ((strip_suf repo ".git").getD repo)

/-- `get_repo` (src/main.rs:152-177).  `git_remote` is the oracle for the
external `git remote get-url origin` call. -/
def get_repo (git_remote : Option CmdOutput) : Except Report String :=
  match git_remote with
  | none => Except.error (report Error.Command)
  | some out =>
    if !out.success then
      Except.error ((report Error.Command).attach_printable
        ("status: " ++ out.statusDisplay))
    else
      match out.stdout with
      | none => Except.error (report Error.Command)
      | some s => parse_repo (rust_trim s)

/-- The remediation hint attached by `get_token` (src/main.rs:180). -/
def token_message : String :=
  "please specify the PAT in the GITHUB_TOKEN environment variable"

/-- `get_token` (src/main.rs:179-188).  `env` is the value of the
`GITHUB_TOKEN` environment variable (`none` models absent or non-unicode). -/
def get_token (env : Option String) : Except Report String :=
  match env with
  | none => Except.error ((report Error.NoToken).attach_printable token_message)
  | some token =>
    if token.isEmpty then
      Except.error ((report Error.NoToken).attach_printable token_message)
    else
      Except.ok token

/-- `struct WorkflowRun` (src/main.rs:266-269). -/
structure WorkflowRun where
  head_sha : String
  deriving DecidableEq, Repr

/-- `struct Artifact` (src/main.rs:223-228). -/
structure Artifact where
  name : String
  archive_download_url : String
  workflow_run : WorkflowRun
  deriving DecidableEq, Repr

/-- `struct Artifacts` (src/main.rs:203-206). -/
structure Artifacts where
  artifacts : List Artifact
  deriving DecidableEq, Repr

/-- `Artifacts::into_filtered_by_rev` (src/main.rs:209-221). -/
def Artifacts.into_filtered_by_rev (self : Artifacts) (rev : String) :
    Except Report (List Artifact) :=
  let artifacts := self.artifacts.filter
    (fun artifact => artifact.workflow_run.head_sha == rev)
  if artifacts.isEmpty then
    Except.error ((report Error.GetArtifacts).attach_printable
      "no artifacts found for the specified revision")
  else
    Except.ok artifacts

/-- Raw response-body bytes. -/
abbrev Bytes := List UInt8

/-- A filesystem path, as a list of components (`PathBuf::push` appends one). -/
abbrev Path := List String

/-- The observable part of one HTTP response: its status code, the canonical
reason phrase of the status (the rest of `StatusCode`'s `Display`), and the
fully-read body (`none` models a body-read failure). -/
structure HttpResponse where
  status : Nat
  reason : String
  body : Option Bytes

/-- The `Display` rendering of `reqwest::StatusCode`:
the numeric code followed by the canonical reason phrase. -/
def statusDisplay (r : HttpResponse) : String :=
  toString r.status ++ " " ++ r.reason

/-- `Artifact::download_internal` (src/main.rs:238-263).  `extract` is the
oracle for `zip_extract::extract(bytes, path, strip_toplevel)` (`true` = Ok);
`response` is the oracle for the GET of `archive_download_url` (`none`
models a send failure). -/
def Artifact.download_internal (self : Artifact)
    (extract : Bytes → Path → Bool → Bool)
    (response : Option HttpResponse) (out_dir : Path) :
    Except Report Unit :=
  match response with
  | none => Except.error (report Error.Request)
  | some response =>
    if response.status == 410 then
      Except.error (report Error.Expired)
    else if response.status != 200 then
      Except.error ((report Error.Request).attach_printable
        ("status: " ++ statusDisplay response))
    else
      match response.body with
      | none => Except.error (report Error.Request)
      | some bytes =>
        let out_dir := out_dir ++ [self.name]
        if extract bytes out_dir false then
          Except.ok ()
        else
          Except.error (report Error.Extract)

/-- `Artifact::download` (src/main.rs:231-236): wraps every failure of
`download_internal` as `DownloadArtifact` with the artifact's name and URL
attached. -/
def Artifact.download (self : Artifact)
    (extract : Bytes → Path → Bool → Bool)
    (response : Option HttpResponse) (out_dir : Path) :
    Except Report Unit :=
  match self.download_internal extract response out_dir with
  | Except.ok u => Except.ok u
  | Except.error r =>
    Except.error
      (((r.change_context Error.DownloadArtifact).attach_printable
          ("artifact: " ++ self.name)).attach_printable
        ("url: " ++ self.archive_download_url))

/-- Observable external effects of a run, in the order the model performs
them.  Spawned tokio tasks begin running as soon as they are spawned, so a
spawned task's own effects are recorded at its spawn point; the relative
order of effects of concurrently running tasks is nondeterministic in the
real program, and only the order of the main task's own awaits and calls is
meaningful. -/
inductive Event
  | fsRemove (path : String)
  | fsCreate (path : String)
  | spawnOutputTask
  | spawnRepoTask
  | spawnRevTask
  | joinRepoTask
  | httpListArtifacts
  | joinRevTask
  | filterByRev
  | joinOutputTask
  | spawnDownload (name : String)
  | httpDownload (url : String)
  deriving DecidableEq, Repr, BEq

/-- State of the filesystem at the output path: `none` means nothing exists
there, `some entries` a directory with those entries. -/
abbrev FsState := Option (List String)

/-- Oracle outcomes for the two filesystem calls of `create_output`. -/
structure FsOps where
  removeOk : Bool
  createOk : Bool
  deriving DecidableEq, Repr

/-- `create_output` (src/main.rs:120-130): if the path exists, recursively
remove it, then create it.  Returns the result, the final state of the
path, and the attempted filesystem operations. -/
def create_output (fs : FsState) (ops : FsOps) (output : String) :
    Except Report Path × FsState × List Event :=
  if fs.isSome then
    if !ops.removeOk then
      (Except.error (report Error.CreateOutput), fs, [Event.fsRemove output])
    else if !ops.createOk then
      (Except.error (report Error.CreateOutput), none,
        [Event.fsRemove output, Event.fsCreate output])
    else
      (Except.ok [output], some [],
        [Event.fsRemove output, Event.fsCreate output])
  else
    if !ops.createOk then
      (Except.error (report Error.CreateOutput), fs, [Event.fsCreate output])
    else
      (Except.ok [output], some [], [Event.fsCreate output])

/-- `get_artifacts` (src/main.rs:190-201).  `listing` is the oracle for the
GET of the artifact-listing endpoint (`none` models a send failure);
`parse` is the oracle for `serde_json::from_slice`.  `error_for_status`
fails on client errors (400-499) and server errors (500-599). -/
def get_artifacts (listing : Option HttpResponse)
    (parse : Bytes → Option Artifacts) : Except Report Artifacts :=
  match listing with
  | none => Except.error (report Error.Request)
  | some resp =>
    if 400 ≤ resp.status && resp.status < 600 then
      Except.error (report Error.Request)
    else
      match resp.body with
      | none => Except.error (report Error.Request)
      | some bytes =>
        match parse bytes with
        | none => Except.error (report Error.Parse)
        | some value => Except.ok value

/-- `struct Cli` (src/main.rs:9-22), after clap has applied defaults. -/
structure Cli where
  output : String
  repo : Option String
  rev : String

/-- All external oracles one run of `main_internal` consults. -/
structure World where
  env_token : Option String
  header_ok : String → Bool
  client_ok : Bool
  fs : FsState
  fs_ops : FsOps
  git_remote : Option CmdOutput
  git_rev_parse : Option CmdOutput
  listing : Option HttpResponse
  parse : Bytes → Option Artifacts
  download_response : Artifact → Option HttpResponse
  extract : Bytes → Path → Bool → Bool

/-- The worker fan-out and aggregation loop (src/main.rs:74-85).  One worker
is spawned per filtered artifact, in order; `JoinSet::join_next` returns
results in completion order, which is nondeterministic, so the model reports
the failure of the first failing worker in spawn order as a deterministic
representative. -/
def run_downloads (w : World) (out_dir : Path) :
    List Artifact → Except Report Unit
  | [] => Except.ok ()
  | artifact :: rest =>
    match artifact.download w.extract (w.download_response artifact) out_dir with
    | Except.ok _ => run_downloads w out_dir rest
    | Except.error r => Except.error r

/-- The spawn-time events of the worker fan-out: each worker is spawned and
immediately issues the GET of its artifact's download URL. -/
def spawn_events (artifacts : List Artifact) : List Event :=
  artifacts.flatMap (fun a =>
    [Event.spawnDownload a.name, Event.httpDownload a.archive_download_url])

/-- The hint attached to a failed repo resolution (src/main.rs:57). -/
def repo_hint : String :=
  "please specify the repo with --repo or see GitHub README for more details"

/-- The hint attached to a failed revision resolution (src/main.rs:62). -/
def rev_hint : String :=
  "please specify the revision with --rev or see GitHub README for more details"

/-- The repo-resolution task spawned at src/main.rs:42-47: an explicit
`--repo` identifier is used verbatim, otherwise `get_repo` runs. -/
def repo_resolution (w : World) (cli : Cli) : Except Report String :=
  match cli.repo with
  | some repo => Except.ok repo
  | none => get_repo w.git_remote

/-- The events emitted by spawning the three context-resolution tasks
(src/main.rs:41-48).  Each spawned task begins running at its spawn point,
so the output task's filesystem operations are recorded here. -/
def ev_spawn (w : World) (cli : Cli) : List Event :=
  Event.spawnOutputTask :: (create_output w.fs w.fs_ops cli.output).2.2 ++
    [Event.spawnRepoTask, Event.spawnRevTask]

/-- `main_internal` (src/main.rs:38-88), returning the run's result and the
trace of observable external effects.  The three context-resolution tasks
are spawned right after the token check and joined at the source's await
points: the repo task before the listing request, the rev task after it,
the output task after filtering.  The tasks are pure functions of the
oracles, so the model reads each task's value at its join point while its
spawn-time effects are recorded in `ev_spawn`.  In src/main.rs the
`change_context(Error::Repo)`, `change_context(Error::Rev)`,
`change_context(Error::CreateOutput)` and
`change_context(Error::DownloadArtifact)` calls on the awaited join handles
apply to `JoinError` (task panic) only, which the model has no counterpart
of, so a spawned task's own error report propagates with only the
`attach_printable` hints applied. -/
def main_internal (w : World) (cli : Cli) : Except Report Unit × List Event :=
  match get_token w.env_token with
  | Except.error r => (Except.error r, [])
  | Except.ok token =>
    if !(w.header_ok token) then
      (Except.error (report Error.InvalidToken), ev_spawn w cli)
    else if !w.client_ok then
      (Except.error (report Error.RequestClient), ev_spawn w cli)
    else
      match repo_resolution w cli with
      | Except.error r =>
        (Except.error (r.attach_printable repo_hint),
          ev_spawn w cli ++ [Event.joinRepoTask])
      | Except.ok _repo =>
        match get_artifacts w.listing w.parse with
        | Except.error r =>
          (Except.error (r.change_context Error.GetArtifacts),
            ev_spawn w cli ++ [Event.joinRepoTask, Event.httpListArtifacts])
        | Except.ok artifacts =>
          match (get_rev w.git_rev_parse cli.rev).1 with
          | Except.error r =>
            (Except.error (r.attach_printable rev_hint),
              ev_spawn w cli ++ [Event.joinRepoTask,
                Event.httpListArtifacts, Event.joinRevTask])
          | Except.ok rev =>
            match artifacts.into_filtered_by_rev rev with
            | Except.error r =>
              (Except.error r,
                ev_spawn w cli ++ [Event.joinRepoTask,
                  Event.httpListArtifacts, Event.joinRevTask,
                  Event.filterByRev])
            | Except.ok filtered =>
              match (create_output w.fs w.fs_ops cli.output).1 with
              | Except.error r =>
                (Except.error r,
                  ev_spawn w cli ++ [Event.joinRepoTask,
                    Event.httpListArtifacts, Event.joinRevTask,
                    Event.filterByRev, Event.joinOutputTask])
              | Except.ok out_dir =>
                (run_downloads w out_dir filtered,
                  ev_spawn w cli ++ [Event.joinRepoTask,
                    Event.httpListArtifacts, Event.joinRevTask,
                    Event.filterByRev, Event.joinOutputTask] ++
                    spawn_events filtered)

/-- `true` when, whenever an event satisfying `p` occurs in the trace, the
event `x` occurs strictly before the first such occurrence. -/
def guarded (x : Event) (p : Event → Bool) : List Event → Bool
  | [] => true
  | e :: tr => if e == x then true else if p e then false else guarded x p tr

/-- Network calls: the listing request and the per-artifact downloads. -/
def Event.isNetwork : Event → Bool
  | Event.httpListArtifacts => true
  | Event.httpDownload _ => true
  | _ => false

/-- Filesystem operations. -/
def Event.isFs : Event → Bool
  | Event.fsRemove _ => true
  | Event.fsCreate _ => true
  | _ => false

/-- Worker spawns. -/
def Event.isSpawnDownload : Event → Bool
  | Event.spawnDownload _ => true
  | _ => false

/-- Written from the spec's words, for comparison with the code's fast-path
test `isHex40`: a 40-character lowercase hexadecimal string. -/
def isLowerHex40 (s : String) : Bool :=
  s.length == 40 &&
    s.data.all (fun c => c.isDigit || (('a' ≤ c) && (c ≤ 'f')))

/-! ## C1: the resolved-revision invariant -/

/-- C1 counterexample: the fast path of `get_rev` accepts the 40-character
string of `A`s (Rust's `is_ascii_hexdigit` accepts uppercase digits) and
returns it unchanged without invoking the VCS resolver, yet it is not a
40-character lowercase hexadecimal string — so the resolved revision is
neither lowercase-hex nor a successful resolver result, refuting the claim
as stated. -/
theorem c1_counterexample :
    (get_rev none (String.mk (List.replicate 40 'A'))).1
        = Except.ok (String.mk (List.replicate 40 'A'))
      ∧ (get_rev none (String.mk (List.replicate 40 'A'))).2 = false
      ∧ isLowerHex40 (String.mk (List.replicate 40 'A')) = false := by
  exact ⟨rfl, rfl, by decide⟩

/-- C1 amended: at filter time the resolved revision is either a
40-character hexadecimal string (of either case, per the code's
`is_ascii_hexdigit` test) or the whitespace-trimmed stdout of a successful
VCS resolver invocation. -/
theorem c1_rev_invariant (git : Option CmdOutput) (rev s : String)
    (h : (get_rev git rev).1 = Except.ok s) :
    isHex40 s = true ∨
      ∃ out stdout, git = some out ∧ out.success = true ∧
        out.stdout = some stdout ∧ s = rust_trim stdout ∧
        (get_rev git rev).2 = true := by
  unfold get_rev at h ⊢
  cases hfast : isHex40 rev with
  | true =>
    simp only [hfast, if_pos] at h
    simp only [Except.ok.injEq] at h
    exact Or.inl (h ▸ hfast)
  | false =>
    simp only [hfast, Bool.false_eq_true, if_neg, not_false_eq_true] at h ⊢
    cases git with
    | none => simp at h
    | some out =>
      cases hsucc : out.success with
      | false => simp [hsucc] at h
      | true =>
        simp only [hsucc, Bool.not_true, Bool.false_eq_true, if_neg,
          not_false_eq_true] at h ⊢
        cases hout : out.stdout with
        | none => simp [hout] at h
        | some stdout =>
          simp only [hout, Except.ok.injEq] at h
          exact Or.inr ⟨out, stdout, rfl, hsucc, hout, h.symm, rfl⟩

/-- C1 amended witness at a concrete resolver output. -/
theorem c1_rev_invariant_witness :
    isHex40 "0123456789abcdef0123456789abcdef01234567" = true ∨
      ∃ out stdout,
        (some (CmdOutput.mk true "exit status: 0"
          (some "0123456789abcdef0123456789abcdef01234567\n"))
            = some out) ∧
        out.success = true ∧ out.stdout = some stdout ∧
        "0123456789abcdef0123456789abcdef01234567" = rust_trim stdout ∧
        (get_rev (some (CmdOutput.mk true "exit status: 0"
          (some "0123456789abcdef0123456789abcdef01234567\n"))) "abc").2
            = true :=
  c1_rev_invariant
    (some (CmdOutput.mk true "exit status: 0"
      (some "0123456789abcdef0123456789abcdef01234567\n")))
    "abc" "0123456789abcdef0123456789abcdef01234567" rfl

/-! ## C2: revision resolution -/

/-- C2: a 40-character all-hexadecimal input is returned unchanged without
invoking the VCS resolver; any other input invokes the resolver, and on a
successful exit the trimmed stdout is returned, while a nonzero exit status
yields a `Command` report carrying the exit status. -/
theorem c2_get_rev_spec (git : Option CmdOutput) (rev : String) :
    (isHex40 rev = true → get_rev git rev = (Except.ok rev, false)) ∧
    (isHex40 rev = false →
      (get_rev git rev).2 = true ∧
      (∀ out s, git = some out → out.success = true → out.stdout = some s →
        (get_rev git rev).1 = Except.ok (rust_trim s)) ∧
      (∀ out, git = some out → out.success = false →
        (get_rev git rev).1 = Except.error
          ((report Error.Command).attach_printable
            ("status: " ++ out.statusDisplay)))) := by
  constructor
  · intro hfast
    simp [get_rev, hfast]
  · intro hfast
    refine ⟨?_, ?_, ?_⟩
    · unfold get_rev
      simp only [hfast, Bool.false_eq_true, if_neg, not_false_eq_true]
      cases git with
      | none => rfl
      | some out =>
        cases hsucc : out.success with
        | false => simp [hsucc]
        | true =>
          simp only [hsucc, Bool.not_true, Bool.false_eq_true, if_neg,
            not_false_eq_true]
          cases out.stdout <;> rfl
    · rintro out s rfl hsucc hout
      simp [get_rev, hfast, hsucc, hout]
    · rintro out rfl hsucc
      simp [get_rev, hfast, hsucc]

/-- C2 witness: the fast path on a concrete 40-hex string, and the
`Command` failure on a concrete failing `git rev-parse`. -/
theorem c2_get_rev_spec_witness :
    get_rev none "0123456789abcdef0123456789abcdef01234567" =
        (Except.ok "0123456789abcdef0123456789abcdef01234567", false) ∧
      (get_rev (some (CmdOutput.mk false "exit status: 128" (some "")))
          "HEAD").1 =
        Except.error ((report Error.Command).attach_printable
          "status: exit status: 128") := by
  constructor
  · exact (c2_get_rev_spec none
      "0123456789abcdef0123456789abcdef01234567").1 (by decide)
  · exact ((c2_get_rev_spec
      (some (CmdOutput.mk false "exit status: 128" (some ""))) "HEAD").2
        (by decide)).2.2 _ rfl rfl

/-! ## C3: per-artifact download status handling -/

/-- C3: for one artifact download, status 410 yields `Expired`; any other
non-200 status yields `Request` with the status attached as a printable
(the numeric code followed by the reason phrase); a 200 status reads the
full body and extracts it into the per-artifact subdirectory
`out_dir/<name>`, with `strip_toplevel = false`, and an extraction failure
is reported as `Extract`. -/
theorem c3_download_status (extract : Bytes → Path → Bool → Bool)
    (resp : HttpResponse) (a : Artifact) (out_dir : Path) :
    (resp.status = 410 →
      a.download_internal extract (some resp) out_dir =
        Except.error (report Error.Expired)) ∧
    (resp.status ≠ 410 → resp.status ≠ 200 →
      a.download_internal extract (some resp) out_dir =
        Except.error ((report Error.Request).attach_printable
          ("status: " ++ statusDisplay resp))) ∧
    (∀ bytes, resp.status = 200 → resp.body = some bytes →
      a.download_internal extract (some resp) out_dir =
        (if extract bytes (out_dir ++ [a.name]) false then
          Except.ok ()
        else
          Except.error (report Error.Extract))) := by
  refine ⟨?_, ?_, ?_⟩
  · intro h410
    simp [Artifact.download_internal, h410]
  · intro h410 h200
    simp [Artifact.download_internal, h410, h200]
  · intro bytes h200 hbody
    simp [Artifact.download_internal, h200, hbody]

/-- C3 witness: a 410 response, a 404 response and a successful 200
extraction on concrete inputs. -/
theorem c3_download_status_witness :
    (Artifact.mk "art" "http://u" (WorkflowRun.mk "r")).download_internal
        (fun _ _ _ => true) (some (HttpResponse.mk 410 "Gone" none)) ["dist"]
          = Except.error (report Error.Expired) ∧
    (Artifact.mk "art" "http://u" (WorkflowRun.mk "r")).download_internal
        (fun _ _ _ => true) (some (HttpResponse.mk 404 "Not Found" none))
          ["dist"]
          = Except.error ((report Error.Request).attach_printable
              "status: 404 Not Found") ∧
    (Artifact.mk "art" "http://u" (WorkflowRun.mk "r")).download_internal
        (fun _ _ _ => true) (some (HttpResponse.mk 200 "OK" (some [80])))
          ["dist"]
          = Except.ok () := by
  refine ⟨?_, ?_, ?_⟩
  · exact (c3_download_status (fun _ _ _ => true)
      (HttpResponse.mk 410 "Gone" none)
      (Artifact.mk "art" "http://u" (WorkflowRun.mk "r")) ["dist"]).1 rfl
  · exact (c3_download_status (fun _ _ _ => true)
      (HttpResponse.mk 404 "Not Found" none)
      (Artifact.mk "art" "http://u" (WorkflowRun.mk "r")) ["dist"]).2.1
        (by decide) (by decide)
  · exact ((c3_download_status (fun _ _ _ => true)
      (HttpResponse.mk 200 "OK" (some [80]))
      (Artifact.mk "art" "http://u" (WorkflowRun.mk "r")) ["dist"]).2.2
        [80] rfl rfl).trans (by rfl)

/-! ## C8: wrapping of worker failures -/

/-- C8: every failure of `download_internal` is re-wrapped by
`Artifact::download` as `DownloadArtifact` with the artifact's name and its
download URL attached as printables. -/
theorem c8_download_wrap (extract : Bytes → Path → Bool → Bool)
    (response : Option HttpResponse) (a : Artifact) (out_dir : Path)
    (r : Report)
    (h : a.download_internal extract response out_dir = Except.error r) :
    a.download extract response out_dir =
      Except.error
        (((r.change_context Error.DownloadArtifact).attach_printable
            ("artifact: " ++ a.name)).attach_printable
          ("url: " ++ a.archive_download_url)) := by
  unfold Artifact.download
  rw [h]

/-- C8 witness: a send failure on a concrete artifact is wrapped with
`DownloadArtifact`, the artifact name and the URL. -/
theorem c8_download_wrap_witness :
    (Artifact.mk "art" "http://u" (WorkflowRun.mk "r")).download
        (fun _ _ _ => true) none ["dist"] =
      Except.error
        ((((report Error.Request).change_context
            Error.DownloadArtifact).attach_printable
          "artifact: art").attach_printable "url: http://u") :=
  c8_download_wrap (fun _ _ _ => true) none
    (Artifact.mk "art" "http://u" (WorkflowRun.mk "r")) ["dist"]
    (report Error.Request) rfl

/-! ## C4: revision filtering -/

/-- C4: filtering retains exactly the artifacts whose `workflow_run.head_sha`
is string-equal to the resolved revision (membership in the successful
result is equivalent to membership in the input plus exact equality, so no
prefix or short-hash matching); when no artifact matches it fails with
`GetArtifacts` and the no-artifacts explanation attached, never returning an
empty list as success. -/
theorem c4_filter_by_rev (arts : Artifacts) (rev : String) :
    ((arts.artifacts.any fun a => a.workflow_run.head_sha == rev) = true →
      arts.into_filtered_by_rev rev =
        Except.ok (arts.artifacts.filter
          fun a => a.workflow_run.head_sha == rev)) ∧
    ((arts.artifacts.any fun a => a.workflow_run.head_sha == rev) = false →
      arts.into_filtered_by_rev rev =
        Except.error ((report Error.GetArtifacts).attach_printable
          "no artifacts found for the specified revision")) ∧
    (∀ l, arts.into_filtered_by_rev rev = Except.ok l →
      l ≠ [] ∧
      ∀ a, a ∈ l ↔ a ∈ arts.artifacts ∧ a.workflow_run.head_sha = rev) := by
  have hmem : ∀ a, a ∈ (arts.artifacts.filter
      fun a => a.workflow_run.head_sha == rev) ↔
      a ∈ arts.artifacts ∧ a.workflow_run.head_sha = rev := by
    intro a
    simp [List.mem_filter]
  refine ⟨?_, ?_, ?_⟩
  · intro h
    unfold Artifacts.into_filtered_by_rev
    rw [if_neg]
    simp only [List.isEmpty_iff, List.filter_eq_nil_iff, not_forall]
    rcases List.any_eq_true.mp h with ⟨a, ha, hpa⟩
    exact ⟨a, ha, by simp [hpa]⟩
  · intro h
    unfold Artifacts.into_filtered_by_rev
    rw [if_pos]
    simp only [List.isEmpty_iff, List.filter_eq_nil_iff]
    intro a ha
    have := List.any_eq_false.mp h a ha
    simp [this]
  · intro l hl
    unfold Artifacts.into_filtered_by_rev at hl
    by_cases hempty : (arts.artifacts.filter
        fun a => a.workflow_run.head_sha == rev).isEmpty = true
    · rw [if_pos hempty] at hl
      exact absurd hl (by simp)
    · rw [if_neg hempty] at hl
      cases hl
      exact ⟨by simpa [List.isEmpty_iff] using hempty, hmem⟩

/-- C4 witness: the spec's own example — filtering `[{rev "a"},{rev "b"}]`
by `"a"` yields exactly the one matching artifact, and by `"c"` fails with
the no-artifacts explanation. -/
theorem c4_filter_by_rev_witness :
    (Artifacts.mk [Artifact.mk "x" "ux" (WorkflowRun.mk "a"),
        Artifact.mk "y" "uy" (WorkflowRun.mk "b")]).into_filtered_by_rev "a" =
      Except.ok [Artifact.mk "x" "ux" (WorkflowRun.mk "a")] ∧
    (Artifacts.mk [Artifact.mk "x" "ux" (WorkflowRun.mk "a"),
        Artifact.mk "y" "uy" (WorkflowRun.mk "b")]).into_filtered_by_rev "c" =
      Except.error ((report Error.GetArtifacts).attach_printable
        "no artifacts found for the specified revision") := by
  constructor
  · exact ((c4_filter_by_rev (Artifacts.mk
      [Artifact.mk "x" "ux" (WorkflowRun.mk "a"),
       Artifact.mk "y" "uy" (WorkflowRun.mk "b")]) "a").1 (by decide)).trans
      rfl
  · exact (c4_filter_by_rev (Artifacts.mk
      [Artifact.mk "x" "ux" (WorkflowRun.mk "a"),
       Artifact.mk "y" "uy" (WorkflowRun.mk "b")]) "c").2.1 (by decide)

/-! ## C5: repository-identity parsing -/

/-- `List.isPrefixOf` holds of a list against itself followed by a tail. -/
theorem isPrefixOf_self_append (l t : List Char) :
    l.isPrefixOf (l ++ t) = true := by
  induction l with
  | nil => cases t <;> rfl
  | cons a l ih => simp [List.isPrefixOf, ih]

/-- `strip_pre` succeeds on a literal concatenation, yielding the tail. -/
theorem strip_pre_append (p s : String) : strip_pre (p ++ s) p = some s := by
  unfold strip_pre
  rw [String.data_append, if_pos, List.drop_left]
  rw [isPrefixOf_self_append]

/-- `strip_pre` fails when the pattern is not a character-prefix. -/
theorem strip_pre_none (s p : String)
    (h : (p.data).isPrefixOf s.data = false) : strip_pre s p = none := by
  unfold strip_pre
  simp [h]

/-- C5: with no explicit identifier, repository parsing accepts exactly the
three remote-URL prefixes `http://github.com/`, `https://github.com/` and
`git@github.com:`, strips the matching prefix and a trailing `.git` when
present, and fails with `Repo` reporting the unparsed string when none of
the three prefixes matches. -/
theorem c5_parse_repo (id url : String) :
    parse_repo ("http://github.com/" ++ id) =
        Except.ok ((strip_suf id ".git").getD id) ∧
    parse_repo ("https://github.com/" ++ id) =
        Except.ok ((strip_suf id ".git").getD id) ∧
    parse_repo ("git@github.com:" ++ id) =
        Except.ok ((strip_suf id ".git").getD id) ∧
    (("http://github.com/".data).isPrefixOf url.data = false →
      ("https://github.com/".data).isPrefixOf url.data = false →
      ("git@github.com:".data).isPrefixOf url.data = false →
      parse_repo url =
        Except.error ((report Error.Repo).attach_printable
          ("failed to get repo from: " ++ url))) := by
  refine ⟨?_, ?_, ?_, ?_⟩
  · simp only [parse_repo, strip_pre_append]
  · have h1 : strip_pre ("https://github.com/" ++ id) "http://github.com/"
        = none := strip_pre_none _ _ (by rw [String.data_append]; rfl)
    simp only [parse_repo, h1, strip_pre_append]
  · have h1 : strip_pre ("git@github.com:" ++ id) "http://github.com/"
        = none := strip_pre_none _ _ (by rw [String.data_append]; rfl)
    have h2 : strip_pre ("git@github.com:" ++ id) "https://github.com/"
        = none := strip_pre_none _ _ (by rw [String.data_append]; rfl)
    simp only [parse_repo, h1, h2, strip_pre_append]
  · intro hu1 hu2 hu3
    simp only [parse_repo, strip_pre_none _ _ hu1, strip_pre_none _ _ hu2,
      strip_pre_none _ _ hu3]

/-- C5 witness: the three prefixes on `owner/repo.git` and the `Repo`
failure on an ssh-scheme URL. -/
theorem c5_parse_repo_witness :
    parse_repo "http://github.com/owner/repo.git" = Except.ok "owner/repo" ∧
    parse_repo "https://github.com/owner/repo.git" = Except.ok "owner/repo" ∧
    parse_repo "git@github.com:owner/repo.git" = Except.ok "owner/repo" ∧
    parse_repo "ssh://github.com/owner/repo" =
      Except.error ((report Error.Repo).attach_printable
        "failed to get repo from: ssh://github.com/owner/repo") := by
  refine ⟨?_, ?_, ?_, ?_⟩
  · exact ((c5_parse_repo "owner/repo.git" "").1).trans rfl
  · exact ((c5_parse_repo "owner/repo.git" "").2.1).trans rfl
  · exact ((c5_parse_repo "owner/repo.git" "").2.2.1).trans rfl
  · exact (c5_parse_repo "" "ssh://github.com/owner/repo").2.2.2
      rfl rfl rfl

/-! ## C7: output-directory preparation -/

/-- C7: on a pre-existing path, preparation removes it recursively and then
recreates it; on a non-existent path it creates it directly; both success
cases leave an empty directory behind; a failure of either the removal or
the creation is reported as `CreateOutput`. -/
theorem c7_create_output (fs : FsState) (ops : FsOps) (output : String) :
    (fs.isSome = true → ops.removeOk = true → ops.createOk = true →
      create_output fs ops output =
        (Except.ok [output], some [],
          [Event.fsRemove output, Event.fsCreate output])) ∧
    (fs = none → ops.createOk = true →
      create_output fs ops output =
        (Except.ok [output], some [], [Event.fsCreate output])) ∧
    (fs.isSome = true → ops.removeOk = false →
      (create_output fs ops output).1 =
        Except.error (report Error.CreateOutput)) ∧
    (ops.createOk = false →
      (create_output fs ops output).1 =
        Except.error (report Error.CreateOutput)) := by
  refine ⟨?_, ?_, ?_, ?_⟩
  · intro hfs hrm hcr
    simp [create_output, hfs, hrm, hcr]
  · intro hfs hcr
    simp [create_output, hfs, hcr]
  · intro hfs hrm
    simp [create_output, hfs, hrm]
  · intro hcr
    cases fs with
    | none => simp [create_output, hcr]
    | some entries =>
      cases hrm : ops.removeOk with
      | false => simp [create_output, hrm]
      | true => simp [create_output, hrm, hcr]

/-- C7 witness: a pre-existing non-empty directory is removed and recreated
empty; a non-existent path is created directly; a failing creation yields
`CreateOutput`. -/
theorem c7_create_output_witness :
    create_output (some ["old"]) (FsOps.mk true true) "dist" =
        (Except.ok ["dist"], some [],
          [Event.fsRemove "dist", Event.fsCreate "dist"]) ∧
    create_output none (FsOps.mk true true) "dist" =
        (Except.ok ["dist"], some [], [Event.fsCreate "dist"]) ∧
    (create_output none (FsOps.mk true false) "dist").1 =
        Except.error (report Error.CreateOutput) := by
  refine ⟨?_, ?_, ?_⟩
  · exact (c7_create_output (some ["old"]) (FsOps.mk true true) "dist").1
      rfl rfl rfl
  · exact (c7_create_output none (FsOps.mk true true) "dist").2.1 rfl rfl
  · exact (c7_create_output none (FsOps.mk true false) "dist").2.2.2 rfl

/-! ## C9: missing or empty credential -/

/-- C9: when the credential environment variable is absent or empty, the run
fails with `NoToken` carrying the remediation hint, and its trace is empty —
in particular no network call is attempted. -/
theorem c9_no_token (w : World) (cli : Cli)
    (h : w.env_token = none ∨ w.env_token = some "") :
    (main_internal w cli).1 =
        Except.error ((report Error.NoToken).attach_printable token_message) ∧
    ((main_internal w cli).2.any Event.isNetwork) = false := by
  have htok : get_token w.env_token =
      Except.error ((report Error.NoToken).attach_printable token_message) := by
    rcases h with h | h <;> rw [h] <;> rfl
  unfold main_internal
  rw [htok]
  exact ⟨rfl, rfl⟩

/-- C9 witness: an absent credential at an otherwise fully-working world. -/
theorem c9_no_token_witness :
    (main_internal
        (World.mk none (fun _ => true) true none (FsOps.mk true true)
          none none none (fun _ => none) (fun _ => none)
          (fun _ _ _ => true))
        (Cli.mk "dist" none "HEAD")).1 =
      Except.error ((report Error.NoToken).attach_printable token_message) :=
  (c9_no_token
    (World.mk none (fun _ => true) true none (FsOps.mk true true)
      none none none (fun _ => none) (fun _ => none) (fun _ _ _ => true))
    (Cli.mk "dist" none "HEAD") (Or.inl rfl)).1

/-! ## C10: no filesystem side effect without a credential -/

/-- C10: when the credential is absent or empty, the run performs no
filesystem operation at all and never even spawns the output-preparation
task — `get_token` runs before the three context tasks are spawned, so the
whole trace is empty. -/
theorem c10_no_token_no_fs (w : World) (cli : Cli)
    (h : w.env_token = none ∨ w.env_token = some "") :
    (main_internal w cli).2 = [] ∧
    ((main_internal w cli).2.any Event.isFs) = false ∧
    Event.spawnOutputTask ∉ (main_internal w cli).2 := by
  have htok : get_token w.env_token =
      Except.error ((report Error.NoToken).attach_printable token_message) := by
    rcases h with h | h <;> rw [h] <;> rfl
  unfold main_internal
  rw [htok]
  exact ⟨rfl, rfl, by simp⟩

/-- C10 witness: an empty credential at a world whose output path exists
(so output preparation would have removed it, had it been spawned). -/
theorem c10_no_token_no_fs_witness :
    (main_internal
        (World.mk (some "") (fun _ => true) true (some ["old"])
          (FsOps.mk true true) none none none (fun _ => none)
          (fun _ => none) (fun _ _ _ => true))
        (Cli.mk "dist" none "HEAD")).2 = [] :=
  (c10_no_token_no_fs
    (World.mk (some "") (fun _ => true) true (some ["old"])
      (FsOps.mk true true) none none none (fun _ => none) (fun _ => none)
      (fun _ _ _ => true))
    (Cli.mk "dist" none "HEAD") (Or.inr rfl)).1

/-! ## C6: join ordering of the three context-resolution tasks -/

/-- Every event recorded by `create_output` is a filesystem operation. -/
theorem create_output_events_fs (fs : FsState) (ops : FsOps) (o : String) :
    ∀ e ∈ (create_output fs ops o).2.2, Event.isFs e = true := by
  intro e he
  cases fs <;> cases hrm : ops.removeOk <;> cases hcr : ops.createOk <;>
    simp only [create_output, hrm, hcr] at he <;>
    simp at he <;>
    rcases he with rfl | rfl <;> rfl

/-- Scanning `guarded` over events that are neither the guard `x` nor
satisfy `p` leaves the scan unchanged. -/
theorem guarded_skip_all (x : Event) (p : Event → Bool) (l tr : List Event)
    (h : ∀ e ∈ l, (e == x) = false ∧ p e = false) :
    guarded x p (l ++ tr) = guarded x p tr := by
  induction l with
  | nil => rfl
  | cons e l ih =>
    have he := h e (List.mem_cons_self e l)
    simp only [List.cons_append, guarded, he.1, he.2, Bool.false_eq_true,
      if_false]
    exact ih fun e' he' => h e' (List.mem_cons_of_mem _ he')

/-- Every element of `ev_spawn` is a spawn marker or a filesystem event. -/
theorem ev_spawn_elems (w : World) (cli : Cli) :
    ∀ e ∈ ev_spawn w cli,
      Event.isFs e = true ∨ e = Event.spawnOutputTask ∨
        e = Event.spawnRepoTask ∨ e = Event.spawnRevTask := by
  intro e he
  unfold ev_spawn at he
  rcases List.mem_cons.mp he with rfl | he
  · exact Or.inr (Or.inl rfl)
  rcases List.mem_append.mp he with he | he
  · exact Or.inl (create_output_events_fs _ _ _ e he)
  · rcases List.mem_cons.mp he with rfl | he
    · exact Or.inr (Or.inr (Or.inl rfl))
    rcases List.mem_cons.mp he with rfl | he
    · exact Or.inr (Or.inr (Or.inr rfl))
    · exact absurd he (List.not_mem_nil e)

/-- Spawn markers and filesystem events are not joins, not the listing
request, not the filter step and not worker spawns. -/
theorem spawn_elem_neutral (e : Event)
    (he : Event.isFs e = true ∨ e = Event.spawnOutputTask ∨
      e = Event.spawnRepoTask ∨ e = Event.spawnRevTask) :
    ((e == Event.joinRepoTask) = false) ∧
    ((e == Event.joinRevTask) = false) ∧
    ((e == Event.joinOutputTask) = false) ∧
    ((e == Event.httpListArtifacts) = false) ∧
    ((e == Event.filterByRev) = false) ∧
    (Event.isSpawnDownload e = false) := by
  cases e <;>
    first
      | exact ⟨rfl, rfl, rfl, rfl, rfl, rfl⟩
      | simp [Event.isFs] at he

/-- The trace of a run is empty or `ev_spawn` followed by one of the seven
possible continuations of the main task. -/
theorem main_trace_cases (w : World) (cli : Cli) :
    (main_internal w cli).2 = [] ∨
    ∃ tail, (main_internal w cli).2 = ev_spawn w cli ++ tail ∧
      (tail = [] ∨
       tail = [Event.joinRepoTask] ∨
       tail = [Event.joinRepoTask, Event.httpListArtifacts] ∨
       tail = [Event.joinRepoTask, Event.httpListArtifacts,
         Event.joinRevTask] ∨
       tail = [Event.joinRepoTask, Event.httpListArtifacts,
         Event.joinRevTask, Event.filterByRev] ∨
       tail = [Event.joinRepoTask, Event.httpListArtifacts,
         Event.joinRevTask, Event.filterByRev, Event.joinOutputTask] ∨
       ∃ filtered, tail = [Event.joinRepoTask, Event.httpListArtifacts,
         Event.joinRevTask, Event.filterByRev, Event.joinOutputTask] ++
           spawn_events filtered) := by
  unfold main_internal
  cases get_token w.env_token with
  | error r => exact Or.inl rfl
  | ok token =>
    by_cases h1 : w.header_ok token
    case neg => exact Or.inr ⟨[], by simp [h1], Or.inl rfl⟩
    by_cases h2 : w.client_ok
    case neg => exact Or.inr ⟨[], by simp [h1, h2], Or.inl rfl⟩
    cases hrep : repo_resolution w cli with
    | error r =>
      exact Or.inr ⟨[Event.joinRepoTask], by simp [h1, h2, hrep], by tauto⟩
    | ok repo =>
      cases hart : get_artifacts w.listing w.parse with
      | error r =>
        exact Or.inr ⟨[Event.joinRepoTask, Event.httpListArtifacts],
          by simp [h1, h2, hrep, hart], by tauto⟩
      | ok artifacts =>
        cases hrev : (get_rev w.git_rev_parse cli.rev).1 with
        | error r =>
          exact Or.inr ⟨[Event.joinRepoTask, Event.httpListArtifacts,
            Event.joinRevTask], by simp [h1, h2, hrep, hart, hrev], by tauto⟩
        | ok rev =>
          cases hfil : artifacts.into_filtered_by_rev rev with
          | error r =>
            exact Or.inr ⟨[Event.joinRepoTask, Event.httpListArtifacts,
              Event.joinRevTask, Event.filterByRev],
              by simp [h1, h2, hrep, hart, hrev, hfil], by tauto⟩
          | ok filtered =>
            cases hout : (create_output w.fs w.fs_ops cli.output).1 with
            | error r =>
              exact Or.inr ⟨[Event.joinRepoTask, Event.httpListArtifacts,
                Event.joinRevTask, Event.filterByRev, Event.joinOutputTask],
                by simp [h1, h2, hrep, hart, hrev, hfil, hout], by tauto⟩
            | ok out_dir =>
              refine Or.inr ⟨[Event.joinRepoTask, Event.httpListArtifacts,
                Event.joinRevTask, Event.filterByRev,
                Event.joinOutputTask] ++ spawn_events filtered,
                by simp [h1, h2, hrep, hart, hrev, hfil, hout], ?_⟩
              exact Or.inr (Or.inr (Or.inr (Or.inr (Or.inr (Or.inr
                ⟨filtered, rfl⟩)))))

/-- C6 amended: the Orchestrator joins the repository-identity task before
running the Artifact Lister, the revision task before running the Revision
Filter, and the output-preparation task before spawning any download
worker; in particular all three joins happen before any worker spawn, but
the revision and output-preparation tasks are not joined before the
Lister. -/
theorem c6_join_order (w : World) (cli : Cli) :
    guarded Event.joinRepoTask (fun e => e == Event.httpListArtifacts)
      (main_internal w cli).2 = true ∧
    guarded Event.joinRevTask (fun e => e == Event.filterByRev)
      (main_internal w cli).2 = true ∧
    guarded Event.joinOutputTask Event.isSpawnDownload
      (main_internal w cli).2 = true ∧
    guarded Event.joinRepoTask Event.isSpawnDownload
      (main_internal w cli).2 = true ∧
    guarded Event.joinRevTask Event.isSpawnDownload
      (main_internal w cli).2 = true := by
  rcases main_trace_cases w cli with h | ⟨tail, htr, hcase⟩
  · rw [h]; exact ⟨rfl, rfl, rfl, rfl, rfl⟩
  · have hskip : ∀ (x : Event) (p : Event → Bool),
        (∀ e, (Event.isFs e = true ∨ e = Event.spawnOutputTask ∨
          e = Event.spawnRepoTask ∨ e = Event.spawnRevTask) →
          (e == x) = false ∧ p e = false) →
        guarded x p ((main_internal w cli).2) = guarded x p tail := by
      intro x p hneutral
      rw [htr]
      exact guarded_skip_all x p _ tail
        fun e he => hneutral e (ev_spawn_elems w cli e he)
    refine ⟨?_, ?_, ?_, ?_, ?_⟩ <;>
      [rw [hskip _ _ fun e he =>
        ⟨(spawn_elem_neutral e he).1, (spawn_elem_neutral e he).2.2.2.1⟩];
       rw [hskip _ _ fun e he =>
        ⟨(spawn_elem_neutral e he).2.1, (spawn_elem_neutral e he).2.2.2.2.1⟩];
       rw [hskip _ _ fun e he =>
        ⟨(spawn_elem_neutral e he).2.2.1,
          (spawn_elem_neutral e he).2.2.2.2.2⟩];
       rw [hskip _ _ fun e he =>
        ⟨(spawn_elem_neutral e he).1, (spawn_elem_neutral e he).2.2.2.2.2⟩];
       rw [hskip _ _ fun e he =>
        ⟨(spawn_elem_neutral e he).2.1,
          (spawn_elem_neutral e he).2.2.2.2.2⟩]] <;>
    · rcases hcase with rfl | rfl | rfl | rfl | rfl | rfl | ⟨filtered, rfl⟩ <;>
        rfl

/-- A concrete fully successful run: token present, repo overridden, the
revision already a 40-hex string, one listed artifact at that revision,
all network, filesystem and extraction oracles succeeding. -/
def c6World : World :=
  World.mk (some "tok") (fun _ => true) true none (FsOps.mk true true)
    none none (some (HttpResponse.mk 200 "OK" (some [])))
    (fun _ => some (Artifacts.mk [Artifact.mk "art" "http://u"
      (WorkflowRun.mk "0123456789abcdef0123456789abcdef01234567")]))
    (fun _ => some (HttpResponse.mk 200 "OK" (some [])))
    (fun _ _ _ => true)

/-- The CLI arguments of the concrete run refuting the claimed join order. -/
def c6Cli : Cli :=
  Cli.mk "dist" (some "owner/repo")
    "0123456789abcdef0123456789abcdef01234567"

/-- C6 counterexample: on a fully successful concrete run the artifact
listing happens before the revision task and the output-preparation task
are joined — the Orchestrator joins only the repository task before the
Artifact Lister, refuting the claim that all three Context Resolver tasks
are joined first. -/
theorem c6_counterexample :
    (main_internal c6World c6Cli).1 = Except.ok () ∧
    (main_internal c6World c6Cli).2.contains Event.httpListArtifacts = true ∧
    guarded Event.joinRevTask (fun e => e == Event.httpListArtifacts)
      (main_internal c6World c6Cli).2 = false ∧
    guarded Event.joinOutputTask (fun e => e == Event.httpListArtifacts)
      (main_internal c6World c6Cli).2 = false := by
  exact ⟨rfl, rfl, rfl, rfl⟩

end Magnesis
